import Mathlib

/-!
Shallow embedding of the Cassandra datastore adapter
(`AppDB/cassandra_env/cassandra_interface.py`) and proofs about it.

The adapter's methods perform network I/O through a driver session.  We
embed each operation as a pure Lean function that takes, besides the
Python arguments, an explicit description of what the network would
return for each request the operation issues, and that returns the
Python-level outcome (`Except PyErr result`) together with the ordered
trace of network requests the operation issued before finishing.
-/

set_option linter.unusedVariables false

namespace CassandraInterface

/-- Driver-level exception kinds raised by statement execution
(`cassandra.Unavailable`, `cassandra.Timeout`,
`cassandra.CoordinationFailure`, `cassandra.OperationTimedOut`,
`cassandra.InvalidRequest`). -/
inductive CasErr
  | unavailable
  | timeout
  | coordinationFailure
  | operationTimedOut
  | invalidRequest
deriving DecidableEq, Repr

/-- Python-level exceptions that can escape an adapter method:
`TypeError` from the isinstance checks, `KeyError` from a dict lookup,
`AppScaleDBConnectionError` (the ConnectionError kind of the spec),
`ValueError` from `float()` on an unparsable string, or a driver
exception propagating unwrapped. -/
inductive PyErr
  | typeError (msg : String)
  | keyError
  | appScaleDBConnectionError (msg : String)
  | raw (e : CasErr)
  | valueError
deriving DecidableEq, Repr

/-- The four transient driver failures caught by the adapter's
`except (cassandra.Unavailable, cassandra.Timeout,
cassandra.CoordinationFailure, cassandra.OperationTimedOut)` clauses. -/
def CasErr.isTransient : CasErr → Bool
  | .unavailable => true
  | .timeout => true
  | .coordinationFailure => true
  | .operationTimedOut => true
  | .invalidRequest => false

/-! ## IdempotentRetryPolicy (cassandra_interface.py lines 51-85) -/

/-- The two decisions a retry policy can return
(`RetryPolicy.RETRY` / `RetryPolicy.RETHROW` of the driver). -/
inductive RetryDecision
  | RETRY
  | RETHROW
deriving DecidableEq, Repr

/-- `IdempotentRetryPolicy.on_read_timeout`: called on a ReadTimeout with
the statement, its consistency level, response counts, a data flag and
the retry count; only `consistency` and `retry_num` are used. -/
def IdempotentRetryPolicy.on_read_timeout (query : Unit) (consistency : Nat)
    (required_responses received_responses : Nat) (data_retrieved : Bool)
    (retry_num : Nat) : RetryDecision × Option Nat :=
  if 5 ≤ retry_num then (.RETHROW, none) else (.RETRY, some consistency)

/-- `IdempotentRetryPolicy.on_write_timeout`: called on a WriteTimeout;
only `consistency` and `retry_num` are used. -/
def IdempotentRetryPolicy.on_write_timeout (query : Unit) (consistency : Nat)
    (write_type : Nat) (required_responses received_responses : Nat)
    (retry_num : Nat) : RetryDecision × Option Nat :=
  if 5 ≤ retry_num then (.RETHROW, none) else (.RETRY, some consistency)

/-- The failure kinds the idempotent policy handles. -/
inductive TimeoutKind
  | readTimeout
  | writeTimeout
deriving DecidableEq, Repr

/-- The policy's decision function: dispatch the failure kind to the
corresponding handler and keep the retry/rethrow component. -/
def decideRetry (k : TimeoutKind) (retry_num : Nat) : RetryDecision :=
  match k with
  | .readTimeout =>
      (IdempotentRetryPolicy.on_read_timeout () 0 0 0 false retry_num).1
  | .writeTimeout =>
      (IdempotentRetryPolicy.on_write_timeout () 0 0 0 0 retry_num).1

/-! ## Connection bootstrap (DatastoreProxy.__init__, lines 99-119) -/

/-- The number of times to retry connecting to Cassandra (line 39). -/
def INITIAL_CONNECT_RETRIES : Nat := 20

/-- The outcome of one `Cluster(...).connect(KEYSPACE)` attempt: success,
or `cassandra.cluster.NoHostAvailable` carrying an error identity so
that "the last connectivity error" is expressible. -/
inductive ConnAttempt
  | ok
  | noHost (errId : Nat)
deriving DecidableEq, Repr

/-- Observable events of the bootstrap loop: a connection attempt
(numbered from 0) and a `time.sleep(seconds)` call. -/
inductive BootEvent
  | connectAttempt (n : Nat)
  | sleep (seconds : Nat)
deriving DecidableEq, Repr

/-- Errors that escape the constructor. -/
inductive InitErr
  | noHostAvailable (errId : Nat)
deriving DecidableEq, Repr

/-- The connected proxy state established by a successful constructor:
the session (identified by the attempt that connected), the default
consistency level set to QUORUM, and the idempotent retry policy. -/
structure ProxyState where
  connectedAttempt : Nat
  defaultConsistencyIsQuorum : Bool
  hasIdempotentRetryPolicy : Bool
deriving DecidableEq, Repr

/-- The `while True` loop of `DatastoreProxy.__init__`: try to connect;
on `NoHostAvailable` decrement the remaining retries, re-raise the error
once they would go negative, otherwise sleep 3 seconds and loop.  The
Python counter starts at `INITIAL_CONNECT_RETRIES` and raises when it
reaches -1; here `remaining` is the same counter kept as a `Nat`, raising
when a failure occurs with `remaining = 0`. -/
def connectLoop (connect : Nat → ConnAttempt) :
    Nat → Nat → List BootEvent → Except InitErr ProxyState × List BootEvent
  | remaining, attempt, log =>
    let log := log ++ [BootEvent.connectAttempt attempt]
    match connect attempt with
    | .ok => (.ok ⟨attempt, true, true⟩, log)
    | .noHost errId =>
      match remaining with
      | 0 => (.error (.noHostAvailable errId), log)
      | r + 1 => connectLoop connect r (attempt + 1) (log ++ [BootEvent.sleep 3])

/-- `DatastoreProxy.__init__`: run the bootstrap loop with the full retry
budget; on success the state has QUORUM default consistency and the
idempotent retry policy (lines 118-119). -/
def DatastoreProxy.init (connect : Nat → ConnAttempt) :
    Except InitErr ProxyState × List BootEvent :=
  connectLoop connect INITIAL_CONNECT_RETRIES 0 []

/-- A connect oracle on which every attempt fails with
`NoHostAvailable`, attempt `n` carrying error identity `errs n`. -/
def connectAllFail (errs : Nat → Nat) : Nat → ConnAttempt :=
  fun n => .noHost (errs n)

/-- The event log of a bootstrap run whose every attempt fails, starting
at attempt `a` with `r` retries remaining: attempts `a, a+1, ...` with a
3-second sleep between consecutive attempts and none after the last. -/
def failLog : Nat → Nat → List BootEvent
  | a, 0 => [.connectAttempt a]
  | a, r + 1 => .connectAttempt a :: .sleep 3 :: failLog (a + 1) r

/-! ## Network requests and statement texts -/

/-- The thrift column names (lines 88-92). -/
def ThriftColumn.KEY : String := "key"

/-- `ThriftColumn.COLUMN_NAME`. -/
def ThriftColumn.COLUMN_NAME : String := "column1"

/-- `ThriftColumn.VALUE`. -/
def ThriftColumn.VALUE : String := "value"

/-- A bound statement added to a driver batch: an insert of one cell or
a full-row delete, tagged with the table whose prepared statement it
binds. -/
inductive Bound
  | insertRow (table key column value : String)
  | deleteRow (table key : String)
deriving DecidableEq, Repr

/-- A network request issued by an adapter operation: preparing a
statement on the cluster (`session.prepare` is a round trip to a host),
executing a batch of bound statements, or executing a simple statement
with positional parameters. -/
inductive NetOp
  | prepareStmt (stmt : String)
  | executeBatch (rows : List Bound)
  | executeStmt (stmt : String) (params : List String)
deriving DecidableEq, Repr

/-- The INSERT text prepared by `prepare_insert` (lines 233-239) and, up
to the optional TTL suffix, by `batch_put_entity` (whitespace
normalized). -/
def prepare_insert_statement (table : String) : String :=
  "INSERT INTO \"" ++ table ++ "\" (" ++ ThriftColumn.KEY ++ ", " ++
    ThriftColumn.COLUMN_NAME ++ ", " ++ ThriftColumn.VALUE ++
    ") VALUES (?, ?, ?)"

/-- The DELETE text prepared by `prepare_delete` (lines 250-255). -/
def prepare_delete_statement (table : String) : String :=
  "DELETE FROM \"" ++ table ++ "\" WHERE " ++ ThriftColumn.KEY ++ " = ?"

/-- The insert text built by `batch_put_entity` (lines 195-204): the
prepared INSERT, with `USING TTL {ttl}` appended when a ttl is given. -/
def insert_statement (table : String) (ttl : Option Nat) : String :=
  prepare_insert_statement table ++
    (match ttl with
     | none => ""
     | some t => " USING TTL " ++ toString t)

/-! ## batch_put_entity (lines 172-223) -/

/-- A Python dict indexing (`d[k]`): the value, or a `KeyError` when the
key is absent. -/
def dictGet {α : Type} (d : List (String × α)) (k : String) :
    Except PyErr α :=
  match d.lookup k with
  | none => .error .keyError
  | some v => .ok v

/-- Whether `cell_values[row_key][column]` would succeed. -/
def cellPresent (cell_values : List (String × List (String × String)))
    (row_key column : String) : Bool :=
  match cell_values.lookup row_key with
  | none => false
  | some row => (row.lookup column).isSome

/-- The inner loop of `batch_put_entity`'s batch construction: for one
`row_key`, bind `(row_key, column, cell_values[row_key][column])` for
each requested column; a missing dict entry raises `KeyError`. -/
def putRowCells (table row_key : String)
    (cell_values : List (String × List (String × String))) :
    List String → Except PyErr (List Bound)
  | [] => .ok []
  | c :: cs =>
    match dictGet cell_values row_key with
    | .error e => .error e
    | .ok row =>
      match dictGet row c with
      | .error e => .error e
      | .ok v =>
        match putRowCells table row_key cell_values cs with
        | .error e => .error e
        | .ok rest => .ok (.insertRow table row_key c v :: rest)

/-- The nested loop of lines 210-215: all bound inserts, in row-major
(row key, then column) order. -/
def putBatchRows (table : String)
    (cell_values : List (String × List (String × String)))
    (column_names : List String) :
    List String → Except PyErr (List Bound)
  | [] => .ok []
  | k :: ks =>
    match putRowCells table k cell_values column_names with
    | .error e => .error e
    | .ok rows =>
      match putBatchRows table cell_values column_names ks with
      | .error e => .error e
      | .ok rest => .ok (rows ++ rest)

/-- `DatastoreProxy.batch_put_entity`: prepare the insert statement (a
network round trip), build the batch from the nested loop (where a
missing `cell_values` entry raises `KeyError`), then execute the batch;
the four transient driver failures are wrapped as
`AppScaleDBConnectionError`. `execOutcome` is the driver's response to
the batch execution (`none` = success). -/
def batch_put_entity (table_name : String)
    (row_keys column_names : List String)
    (cell_values : List (String × List (String × String)))
    (ttl : Option Nat) (execOutcome : Option CasErr) :
    Except PyErr Unit × List NetOp :=
  let stmt := insert_statement table_name ttl
  let trace := [NetOp.prepareStmt stmt]
  match putBatchRows table_name cell_values column_names row_keys with
  | .error e => (.error e, trace)
  | .ok rows =>
    let trace := trace ++ [NetOp.executeBatch rows]
    match execOutcome with
    | none => (.ok (), trace)
    | some e =>
      if e.isTransient then
        (.error (.appScaleDBConnectionError "Exception during batch_put_entity"),
          trace)
      else
        (.error (.raw e), trace)

/-- Whether an outcome is the ArgumentError kind of the spec: in this
adapter that kind is the `TypeError` raised by the isinstance checks
before any statement is built. -/
def isArgumentError : Except PyErr Unit → Bool
  | .error (.typeError _) => true
  | _ => false

/-! ## batch_delete (lines 293-325) -/

/-- The DELETE text built by `batch_delete` (lines 311-315): a full-row
delete by key list; no column appears in it. -/
def delete_statement (table : String) : String :=
  "DELETE FROM \"" ++ table ++ "\" WHERE " ++ ThriftColumn.KEY ++ " IN %s"

/-- `DatastoreProxy.batch_delete`: executes one full-row DELETE over the
key list; the `column_names` parameter is accepted but never read
(docstring: "Not used"). -/
def batch_delete (table_name : String) (row_keys : List String)
    (column_names : List String) (execOutcome : Option CasErr) :
    Except PyErr Unit × List NetOp :=
  let stmt := delete_statement table_name
  let trace := [NetOp.executeStmt stmt row_keys]
  match execOutcome with
  | none => (.ok (), trace)
  | some e =>
    if e.isTransient then
      (.error (.appScaleDBConnectionError "Exception during batch_delete"),
        trace)
    else
      (.error (.raw e), trace)

/-! ## batch_mutate (lines 258-291) -/

/-- Modelled from the spec: the tag constants `TxnActions.PUT` and
`TxnActions.DELETE` are imported from `dbconstants.py`, which is not
among the source files.  The spec's data model says a Mutation is "a
tagged operation, either PUT(table, key, column→value map, optional
ttl) or DELETE(table, key)", so the operation tags are modelled as an
inductive with the two known distinct tags plus `other` for any
unrecognized tag. -/
inductive TxnAction
  | PUT
  | DELETE
  | other (tag : String)
deriving DecidableEq, Repr

/-- One dictionary of the `mutations` list passed to `batch_mutate`:
its `table`, `operation`, `key` and (for PUT) `values` entries. -/
structure Mutation where
  table : String
  operation : TxnAction
  key : String
  values : List (String × String)
deriving DecidableEq, Repr

/-- Whether an operation tag is one of the two recognized by
`batch_mutate`'s if/elif dispatch. -/
def TxnAction.isRecognized : TxnAction → Bool
  | .PUT => true
  | .DELETE => true
  | .other _ => false

/-- The loop state of `batch_mutate`: the two prepared-statement caches
(the tables whose insert/delete statements were already prepared), the
bound statements added to the batch so far, and the network trace of
`session.prepare` round trips issued so far. -/
structure MutateState where
  insertCache : List String
  deleteCache : List String
  batch : List Bound
  trace : List NetOp
deriving DecidableEq, Repr

/-- One iteration of `batch_mutate`'s loop (lines 266-283): PUT prepares
the table's insert statement unless cached and adds one bound insert per
column of `values`; DELETE prepares the delete statement unless cached
and adds one bound full-row delete; any other operation tag matches
neither branch and leaves the state unchanged. -/
def mutateStep (st : MutateState) (m : Mutation) : MutateState :=
  match m.operation with
  | .PUT =>
    let st' :=
      if st.insertCache.contains m.table then st
      else
        { st with
            insertCache := st.insertCache ++ [m.table]
            trace := st.trace ++
              [NetOp.prepareStmt (prepare_insert_statement m.table)] }
    { st' with
        batch := st'.batch ++
          m.values.map (fun cv => Bound.insertRow m.table m.key cv.1 cv.2) }
  | .DELETE =>
    let st' :=
      if st.deleteCache.contains m.table then st
      else
        { st with
            deleteCache := st.deleteCache ++ [m.table]
            trace := st.trace ++
              [NetOp.prepareStmt (prepare_delete_statement m.table)] }
    { st' with batch := st'.batch ++ [Bound.deleteRow m.table m.key] }
  | .other _ => st

/-- `DatastoreProxy.batch_mutate`: fold the loop over the mutation list,
then execute the accumulated batch as one atomic statement; the four
transient driver failures are wrapped as `AppScaleDBConnectionError`. -/
def batch_mutate (mutations : List Mutation) (execOutcome : Option CasErr) :
    Except PyErr Unit × List NetOp :=
  let st := mutations.foldl mutateStep ⟨[], [], [], []⟩
  let trace := st.trace ++ [NetOp.executeBatch st.batch]
  match execOutcome with
  | none => (.ok (), trace)
  | some e =>
    if e.isTransient then
      (.error (.appScaleDBConnectionError "Exception during batch_mutate"),
        trace)
    else
      (.error (.raw e), trace)

/-! ## range_query (lines 387-489) -/

/-- An element of `range_query`'s `results_list`: a bare row key (pushed
when `keys_only` is set) or a grouped entity `{key: {column: value}}`
(the key is `None` before any triple was grouped, hence `Option`). -/
inductive RQItem
  | key (k : String)
  | entity (k : Option String) (item : List (String × String))
deriving DecidableEq, Repr

/-- Python dict assignment `d[column] = value`: overwrite in place when
the key exists (keeping insertion order), append otherwise. -/
def dictSet (d : List (String × String)) (k v : String) :
    List (String × String) :=
  if d.any (fun p => p.1 == k) then
    d.map (fun p => if p.1 == k then (k, v) else p)
  else d ++ [(k, v)]

/-- The result-processing loop of `range_query` (lines 467-483): walk
the flat (key, column, value) stream; with `keys_only` push the key of
every triple; otherwise group contiguous triples by key, flushing the
current entity whenever the key changes and once more at the end if it
is non-empty. -/
def rq_group (keys_only : Bool) :
    List (String × String × String) → List RQItem →
    List (String × String) → Option String → List RQItem
  | [], results_list, current_item, current_key =>
    if current_item.isEmpty then results_list
    else results_list ++ [.entity current_key current_item]
  | (key, column, value) :: rest, results_list, current_item, current_key =>
    if keys_only then
      rq_group keys_only rest (results_list ++ [.key key]) current_item
        current_key
    else if current_key = some key then
      rq_group keys_only rest results_list (dictSet current_item column value)
        current_key
    else
      let results_list :=
        if current_item.isEmpty then results_list
        else results_list ++ [.entity current_key current_item]
      rq_group keys_only rest results_list (dictSet [] column value) (some key)

/-- The SELECT text built by `range_query` (lines 442-458, whitespace
normalized): token-range bounds with configurable inclusivity, a column
IN-list, and a row-column LIMIT of `len(column_names) * limit` when a
limit is given.  The `offset` argument does not occur in it. -/
def range_query_statement (table : String) (column_names : List String)
    (limit : Option Nat) (start_inclusive end_inclusive : Bool) : String :=
  let gt_compare := if start_inclusive then ">=" else ">"
  let lt_compare := if end_inclusive then "<=" else "<"
  let query_limit :=
    match limit with
    | none => ""
    | some l => "LIMIT " ++ toString (column_names.length * l)
  "SELECT * FROM \"" ++ table ++ "\" WHERE token(" ++ ThriftColumn.KEY ++
    ") " ++ gt_compare ++ " %s AND token(" ++ ThriftColumn.KEY ++ ") " ++
    lt_compare ++ " %s AND " ++ ThriftColumn.COLUMN_NAME ++ " IN %s " ++
    query_limit ++ " ALLOW FILTERING"

/-- `DatastoreProxy.range_query`: issue the SELECT, then (on success)
group the driver's triple stream and return `results_list[offset:]`;
the four transient driver failures are wrapped as
`AppScaleDBConnectionError`.  `streamOutcome` is the driver's response
to the SELECT. -/
def range_query (table_name : String) (column_names : List String)
    (start_key end_key : String) (limit : Option Nat) (offset : Nat)
    (start_inclusive end_inclusive : Bool) (keys_only : Bool)
    (streamOutcome : Except CasErr (List (String × String × String))) :
    Except PyErr (List RQItem) × List NetOp :=
  let stmt := range_query_statement table_name column_names limit
    start_inclusive end_inclusive
  let trace :=
    [NetOp.executeStmt stmt ([start_key, end_key] ++ column_names)]
  match streamOutcome with
  | .error e =>
    if e.isTransient then
      (.error (.appScaleDBConnectionError "Exception during range_query"),
        trace)
    else
      (.error (.raw e), trace)
  | .ok results =>
    (.ok ((rq_group keys_only results [] [] none).drop offset), trace)

/-! ## Metadata store (lines 351-385, 491-570) -/

/-- Modelled from the spec: `dbconstants.DATASTORE_METADATA_TABLE`
(dbconstants.py is not among the source files); the spec only requires a
fixed reserved table name distinct from caller-visible tables. -/
def DATASTORE_METADATA_TABLE : String := "datastore_metadata"

/-- Modelled from the spec: `dbconstants.DATASTORE_METADATA_SCHEMA`
(dbconstants.py is not among the source files); it is only passed to
`create_table`, whose docstring says the column list is "Not used". -/
def DATASTORE_METADATA_SCHEMA : List String := [ThriftColumn.VALUE]

/-- The metadata key for the data layout version (line 45). -/
def VERSION_INFO_KEY : String := "version"

/-- The data layout version that the datastore expects (line 42), the
Python float `1.0` as an exact rational. -/
def EXPECTED_DATA_VERSION : Rat := 1

/-- The CREATE text built by `create_table` (lines 366-376). -/
def create_table_statement (table : String) : String :=
  "CREATE TABLE IF NOT EXISTS \"" ++ table ++ "\" (" ++ ThriftColumn.KEY ++
    " blob," ++ ThriftColumn.COLUMN_NAME ++ " text," ++ ThriftColumn.VALUE ++
    " blob,PRIMARY KEY (" ++ ThriftColumn.KEY ++ ", " ++
    ThriftColumn.COLUMN_NAME ++ ")) WITH COMPACT STORAGE"

/-- `DatastoreProxy.create_table` (lines 351-385): execute the
idempotent CREATE; the `column_names` parameter is unused; the four
transient driver failures are wrapped as `AppScaleDBConnectionError`,
anything else would propagate unwrapped. -/
def create_table (table_name : String) (column_names : List String)
    (execOutcome : Option CasErr) : Except PyErr Unit × List NetOp :=
  let trace := [NetOp.executeStmt (create_table_statement table_name) []]
  match execOutcome with
  | none => (.ok (), trace)
  | some e =>
    if e.isTransient then
      (.error (.appScaleDBConnectionError "Exception during create_table"),
        trace)
    else
      (.error (.raw e), trace)

/-- The INSERT text built by `set_metadata` (lines 535-543). -/
def set_metadata_statement : String :=
  "INSERT INTO \"" ++ DATASTORE_METADATA_TABLE ++ "\" (" ++
    ThriftColumn.KEY ++ ", " ++ ThriftColumn.COLUMN_NAME ++ ", " ++
    ThriftColumn.VALUE ++ ") VALUES (%(key)s, %(column)s, %(value)s)"

/-- `DatastoreProxy.set_metadata` (lines 522-557): execute the point
write; a transient driver failure becomes `AppScaleDBConnectionError`;
an `InvalidRequest` (the reserved table does not exist) is caught once,
`create_table` runs, and the write is re-executed — and that second
execute sits outside every try/except, so whatever it raises propagates
unwrapped.  The three `Option CasErr` arguments are the driver's
responses to the first write, the CREATE, and the retried write. -/
def set_metadata (key value : String) (firstWrite : Option CasErr)
    (createOutcome : Option CasErr) (secondWrite : Option CasErr) :
    Except PyErr Unit × List NetOp :=
  let trace := [NetOp.executeStmt set_metadata_statement [key, value]]
  match firstWrite with
  | none => (.ok (), trace)
  | some .invalidRequest =>
    let cr := create_table DATASTORE_METADATA_TABLE DATASTORE_METADATA_SCHEMA
      createOutcome
    let trace := trace ++ cr.2
    match cr.1 with
    | .error ce => (.error ce, trace)
    | .ok _ =>
      let trace := trace ++
        [NetOp.executeStmt set_metadata_statement [key, value]]
      match secondWrite with
      | none => (.ok (), trace)
      | some e2 => (.error (.raw e2), trace)
  | some e =>
    (.error
      (.appScaleDBConnectionError ("Unable to set datastore metadata for "
        ++ key)), trace)

/-- Whether an outcome is the spec's ConnectionError kind
(`AppScaleDBConnectionError`). -/
def isConnectionError : Except PyErr Unit → Bool
  | .error (.appScaleDBConnectionError _) => true
  | _ => false

/-- The SELECT text built by `get_metadata` (lines 499-508). -/
def get_metadata_statement : String :=
  "SELECT " ++ ThriftColumn.VALUE ++ " FROM \"" ++
    DATASTORE_METADATA_TABLE ++ "\" WHERE " ++ ThriftColumn.KEY ++
    " = %s AND " ++ ThriftColumn.COLUMN_NAME ++ " = %s"

/-- The driver's response to `get_metadata`'s SELECT: the result rows
(each row's `value` column) or a raised driver exception. -/
inductive ReadOutcome
  | rows (values : List String)
  | raise (e : CasErr)
deriving DecidableEq, Repr

/-- `DatastoreProxy.get_metadata` (lines 491-520): point read; a
transient driver failure becomes `AppScaleDBConnectionError`, any other
raise propagates unwrapped; `results[0].value` with an empty result list
raises `IndexError`, caught and turned into `None`. -/
def get_metadata (key : String) (outcome : ReadOutcome) :
    Except PyErr (Option String) × List NetOp :=
  let trace := [NetOp.executeStmt get_metadata_statement [key, key]]
  match outcome with
  | .raise e =>
    if e.isTransient then
      (.error
        (.appScaleDBConnectionError ("Unable to fetch " ++ key ++
          " from datastore metadata")), trace)
    else
      (.error (.raw e), trace)
  | .rows [] => (.ok none, trace)
  | .rows (v :: _) => (.ok (some v), trace)

/-- Split a character list at its first dot: (the part before it, the
part after it when a dot occurs). -/
def splitDot : List Char → List Char × Option (List Char)
  | [] => ([], none)
  | c :: rest =>
    if c = '.' then ([], some rest)
    else
      let p := splitDot rest
      (c :: p.1, p.2)

/-- The value of a digit list read in base 10. -/
def digitsToNat (cs : List Char) : Nat :=
  cs.foldl (fun n c => n * 10 + (c.toNat - 48)) 0

/-- Modelled behaviour of Python's `float()` builtin (an interpreter
builtin, external to the repository) restricted to plain decimal
literals: an optional sign, digits, an optional dot and fraction digits,
at least one digit in all.  The exact rational value, or `none` where
`float()` raises `ValueError`. -/
def pyFloat (s : String) : Option Rat :=
  let cs := s.toList
  let signAndRest :=
    match cs with
    | '-' :: r => (true, r)
    | '+' :: r => (false, r)
    | r => (false, r)
  let p := splitDot signAndRest.2
  let frac := p.2.getD []
  if p.1.all Char.isDigit && frac.all Char.isDigit &&
      !(p.1.isEmpty && frac.isEmpty) then
    let q : Rat := mkRat
      (digitsToNat p.1 * 10 ^ frac.length + digitsToNat frac)
      (10 ^ frac.length)
    some (if signAndRest.1 then -q else q)
  else
    none

/-- `DatastoreProxy.valid_data_version` (lines 559-570): read the
version key, catching only `cassandra.InvalidRequest` (not-yet-created
table) as `False`; then `version is not None and float(version) ==
EXPECTED_DATA_VERSION`, where `float()` on an unparsable value raises
`ValueError`. -/
def valid_data_version (outcome : ReadOutcome) :
    Except PyErr Bool × List NetOp :=
  let r := get_metadata VERSION_INFO_KEY outcome
  match r.1 with
  | .error (.raw .invalidRequest) => (.ok false, r.2)
  | .error e => (.error e, r.2)
  | .ok none => (.ok false, r.2)
  | .ok (some v) =>
    match pyFloat v with
    | none => (.error .valueError, r.2)
    | some q => (.ok (decide (q = EXPECTED_DATA_VERSION)), r.2)

theorem connectLoop_allFail (errs : Nat → Nat) :
    ∀ (r a : Nat) (log : List BootEvent),
      connectLoop (connectAllFail errs) r a log =
        (.error (.noHostAvailable (errs (a + r))), log ++ failLog a r) := by
  intro r
  induction r with
  | zero =>
      intro a log
      simp [connectLoop, connectAllFail, failLog]
  | succ n ih =>
      intro a log
      rw [connectLoop]
      simp only [connectAllFail, failLog]
      rw [ih (a + 1) _]
      have h : a + 1 + n = a + (n + 1) := by omega
      rw [h]
      simp

/-- C2: for every attempt number n and both failure kinds read-timeout and
write-timeout, the idempotent retry policy's decision function returns
RETRY when n < 5 and RETHROW when n >= 5; in particular
decide(read-timeout, 4) = RETRY and decide(read-timeout, 5) = RETHROW. -/
theorem claim_C2_retry_policy_boundary :
    (∀ (k : TimeoutKind) (n : Nat),
        decideRetry k n =
          if n < 5 then RetryDecision.RETRY else RetryDecision.RETHROW) ∧
    decideRetry .readTimeout 4 = .RETRY ∧
    decideRetry .readTimeout 5 = .RETHROW := by
  refine ⟨?_, by decide, by decide⟩
  intro k n
  cases k <;>
    simp only [decideRetry, IdempotentRetryPolicy.on_read_timeout,
      IdempotentRetryPolicy.on_write_timeout] <;>
    split <;> split <;> first | rfl | omega

/-- C3: if every connection attempt fails with NoHostAvailable, the
constructor's bootstrap loop makes 21 attempts (1 initial + 20 retries),
sleeps 3 seconds between consecutive attempts, propagates the error of
the last attempt, and produces no proxy state. -/
theorem claim_C3_bootstrap_retry_budget (errs : Nat → Nat) :
    DatastoreProxy.init (connectAllFail errs) =
      (.error (.noHostAvailable (errs 20)), failLog 0 20) ∧
    ((failLog 0 20).filter
        (fun e => match e with | .connectAttempt _ => true | _ => false)).length
      = 21 ∧
    (failLog 0 20).filter
        (fun e => match e with | .sleep _ => true | _ => false)
      = List.replicate 20 (.sleep 3) := by
  refine ⟨?_, by decide, by decide⟩
  have h := connectLoop_allFail errs 20 0 []
  simpa [DatastoreProxy.init, INITIAL_CONNECT_RETRIES] using h

theorem putRowCells_missing (table row_key : String)
    (cell_values : List (String × List (String × String))) :
    ∀ cols : List String,
      (∃ c ∈ cols, cellPresent cell_values row_key c = false) →
      putRowCells table row_key cell_values cols = .error .keyError := by
  intro cols
  induction cols with
  | nil =>
      rintro ⟨c, hc, -⟩
      simp at hc
  | cons c cs ih =>
      rintro ⟨c', hc', hpres⟩
      rcases List.mem_cons.mp hc' with rfl | hmem
      · cases hcv : cell_values.lookup row_key with
        | none => simp [putRowCells, dictGet, hcv]
        | some row =>
            simp only [cellPresent, hcv] at hpres
            cases hrow : row.lookup c' with
            | none => simp [putRowCells, dictGet, hcv, hrow]
            | some v => simp [hrow] at hpres
      · cases hcv : cell_values.lookup row_key with
        | none => simp [putRowCells, dictGet, hcv]
        | some row =>
            cases hrow : row.lookup c with
            | none => simp [putRowCells, dictGet, hcv, hrow]
            | some v =>
                simp [putRowCells, dictGet, hcv, hrow,
                  ih ⟨c', hmem, hpres⟩]

theorem putRowCells_error_keyError (table row_key : String)
    (cell_values : List (String × List (String × String))) :
    ∀ (cols : List String) (e : PyErr),
      putRowCells table row_key cell_values cols = .error e →
      e = .keyError := by
  intro cols
  induction cols with
  | nil =>
      intro e h
      simp [putRowCells] at h
  | cons c cs ih =>
      intro e h
      cases hcv : cell_values.lookup row_key with
      | none =>
          simp [putRowCells, dictGet, hcv] at h
          exact h.symm
      | some row =>
          cases hrow : row.lookup c with
          | none =>
              simp [putRowCells, dictGet, hcv, hrow] at h
              exact h.symm
          | some v =>
              simp only [putRowCells, dictGet, hcv, hrow] at h
              cases hrec : putRowCells table row_key cell_values cs with
              | error e' =>
                  rw [hrec] at h
                  simp at h
                  exact h ▸ ih e' hrec
              | ok rest =>
                  rw [hrec] at h
                  simp at h

theorem putBatchRows_missing (table : String)
    (cell_values : List (String × List (String × String)))
    (column_names : List String) :
    ∀ row_keys : List String,
      (∃ k ∈ row_keys, ∃ c ∈ column_names,
        cellPresent cell_values k c = false) →
      putBatchRows table cell_values column_names row_keys =
        .error .keyError := by
  intro row_keys
  induction row_keys with
  | nil =>
      rintro ⟨k, hk, -⟩
      simp at hk
  | cons k ks ih =>
      rintro ⟨k', hk', hc⟩
      rcases List.mem_cons.mp hk' with rfl | hmem
      · simp [putBatchRows,
          putRowCells_missing table k' cell_values column_names hc]
      · cases hhead : putRowCells table k cell_values column_names with
        | error e =>
            have he : e = .keyError :=
              putRowCells_error_keyError table k cell_values column_names e hhead
            simp [putBatchRows, hhead, he]
        | ok rows =>
            simp [putBatchRows, hhead, ih ⟨k', hmem, hc⟩]

/-- C1 counterexample: `put("T", keys=["k"], columns=["c"], values={})`
fails with `KeyError` — not the ArgumentError kind — and a
statement-prepare network round trip is issued before the failure. -/
theorem claim_C1_counterexample :
    (batch_put_entity "T" ["k"] ["c"] [] none none).1 =
      .error .keyError ∧
    isArgumentError (batch_put_entity "T" ["k"] ["c"] [] none none).1 =
      false ∧
    (batch_put_entity "T" ["k"] ["c"] [] none none).2 =
      [NetOp.prepareStmt (insert_statement "T" none)] :=
  ⟨rfl, rfl, rfl⟩

/-- C1 (amended): for every call to batch_put_entity with well-typed
arguments where `values_by_key_and_column` is missing the entry for some
declared (key, column) pair, the call fails with `KeyError` (not the
ArgumentError kind) after the statement-prepare network round trip, and
no batch execution is issued. -/
theorem claim_C1_missing_entry (table_name : String)
    (row_keys column_names : List String)
    (cell_values : List (String × List (String × String)))
    (ttl : Option Nat) (execOutcome : Option CasErr)
    (h : ∃ k ∈ row_keys, ∃ c ∈ column_names,
        cellPresent cell_values k c = false) :
    batch_put_entity table_name row_keys column_names cell_values ttl
        execOutcome =
      (.error .keyError,
        [NetOp.prepareStmt (insert_statement table_name ttl)]) := by
  simp [batch_put_entity,
    putBatchRows_missing table_name cell_values column_names row_keys h]

/-- Witness for C1 (amended) at a concrete input. -/
theorem claim_C1_missing_entry_witness :
    batch_put_entity "T2" ["k"] ["c"] [] none none =
      (.error .keyError, [NetOp.prepareStmt (insert_statement "T2" none)]) :=
  claim_C1_missing_entry "T2" ["k"] ["c"] [] none none
    ⟨"k", by simp, "c", by simp, rfl⟩

/-- C8: the column_names argument of batch_delete has no effect — two
runs differing only in column_names are identical — and each run issues
the one full-row DELETE statement parameterized by the keys alone. -/
theorem claim_C8_column_names_no_effect (table_name : String)
    (row_keys cols1 cols2 : List String) (execOutcome : Option CasErr) :
    batch_delete table_name row_keys cols1 execOutcome =
      batch_delete table_name row_keys cols2 execOutcome ∧
    (batch_delete table_name row_keys cols1 execOutcome).2 =
      [NetOp.executeStmt (delete_statement table_name) row_keys] := by
  refine ⟨rfl, ?_⟩
  cases execOutcome with
  | none => rfl
  | some e => cases e <;> rfl

theorem mutateStep_other (st : MutateState) (m : Mutation)
    (h : m.operation.isRecognized = false) : mutateStep st m = st := by
  cases hop : m.operation with
  | PUT => rw [hop] at h; simp [TxnAction.isRecognized] at h
  | DELETE => rw [hop] at h; simp [TxnAction.isRecognized] at h
  | other tag => simp [mutateStep, hop]

theorem foldl_mutateStep_filter :
    ∀ (mutations : List Mutation) (st : MutateState),
      mutations.foldl mutateStep st =
        (mutations.filter (fun m => m.operation.isRecognized)).foldl
          mutateStep st := by
  intro mutations
  induction mutations with
  | nil => intro st; rfl
  | cons m ms ih =>
      intro st
      by_cases hm : m.operation.isRecognized
      · simp [List.foldl_cons, List.filter_cons, hm, ih]
      · simp only [List.foldl_cons, List.filter_cons]
        rw [mutateStep_other st m (by simpa using hm)]
        simp [hm, ih]

theorem foldl_mutateStep_all_other (mutations : List Mutation)
    (h : ∀ m ∈ mutations, m.operation.isRecognized = false) :
    ∀ st : MutateState, mutations.foldl mutateStep st = st := by
  induction mutations with
  | nil => intro st; rfl
  | cons m ms ih =>
      intro st
      rw [List.foldl_cons, mutateStep_other st m (h m (by simp))]
      exact ih (fun m' hm' => h m' (by simp [hm'])) st

/-- C9: mutations whose operation tag is neither PUT nor DELETE are
silently ignored by batch_mutate: dropping them from the list changes
nothing, a list of only unrecognized tags executes an empty batch
successfully, and so does the concrete singleton example. -/
theorem claim_C9_unrecognized_ops_ignored :
    (∀ (mutations : List Mutation) (execOutcome : Option CasErr),
        batch_mutate mutations execOutcome =
          batch_mutate
            (mutations.filter (fun m => m.operation.isRecognized))
            execOutcome) ∧
    (∀ mutations : List Mutation,
        (∀ m ∈ mutations, m.operation.isRecognized = false) →
        batch_mutate mutations none = (.ok (), [NetOp.executeBatch []])) ∧
    batch_mutate
        [{ table := "T", operation := .other "unknown", key := "k",
           values := [("c", "v")] }] none =
      (.ok (), [NetOp.executeBatch []]) := by
  refine ⟨?_, ?_, rfl⟩
  · intro mutations execOutcome
    unfold batch_mutate
    rw [← foldl_mutateStep_filter]
  · intro mutations h
    unfold batch_mutate
    rw [foldl_mutateStep_all_other mutations h]
    rfl

theorem rq_group_keys_only (stream : List (String × String × String)) :
    ∀ (acc : List RQItem) (ck : Option String),
      rq_group true stream acc [] ck =
        acc ++ stream.map (fun t => RQItem.key t.1) := by
  induction stream with
  | nil => intro acc ck; simp [rq_group]
  | cons t rest ih =>
      intro acc ck
      obtain ⟨k, c, v⟩ := t
      simp [rq_group, ih]

/-- C6 counterexample: with keys_only set, a row matched by two
requested columns contributes its key once per matching triple — the
result is not the list of distinct keys. -/
theorem claim_C6_counterexample :
    (range_query "T" ["c1", "c2"] "a" "z" (some 10) 0 true true true
        (.ok [("k", "c1", "v1"), ("k", "c2", "v2")])).1 =
      .ok [RQItem.key "k", RQItem.key "k"] ∧
    (range_query "T" ["c1", "c2"] "a" "z" (some 10) 0 true true true
        (.ok [("k", "c1", "v1"), ("k", "c2", "v2")])).1 ≠
      .ok [RQItem.key "k"] := by
  refine ⟨rfl, ?_⟩
  rw [show (range_query "T" ["c1", "c2"] "a" "z" (some 10) 0 true true true
      (.ok [("k", "c1", "v1"), ("k", "c2", "v2")])).1 =
    Except.ok [RQItem.key "k", RQItem.key "k"] from rfl]
  simp

/-- C6 (amended): with keys_only set, range_query returns the ordered
list of row keys, one per (key, column, value) triple of the result
stream (so a row matched by several requested columns contributes its
key once per matching triple), with no column values assembled and the
offset slice applied. -/
theorem claim_C6_keys_only (table_name : String) (column_names : List String)
    (start_key end_key : String) (limit : Option Nat) (offset : Nat)
    (start_inclusive end_inclusive : Bool)
    (stream : List (String × String × String)) :
    (range_query table_name column_names start_key end_key limit offset
        start_inclusive end_inclusive true (.ok stream)).1 =
      .ok ((stream.map (fun t => RQItem.key t.1)).drop offset) := by
  simp [range_query, rq_group_keys_only stream [] none]

/-- C7: the offset is applied as an in-memory slice after grouping —
for the same table, columns, bounds, limit and inclusivity flags and the
same store response, the offset-k result is the offset-0 grouped entity
list with its first k entities dropped, and the statement sent to the
store (which never mentions the offset) is identical. -/
theorem claim_C7_offset_is_client_side_slice (table_name : String)
    (column_names : List String) (start_key end_key : String)
    (limit : Option Nat) (offset : Nat)
    (start_inclusive end_inclusive : Bool)
    (streamOutcome : Except CasErr (List (String × String × String))) :
    (range_query table_name column_names start_key end_key limit offset
        start_inclusive end_inclusive false streamOutcome).1 =
      ((range_query table_name column_names start_key end_key limit 0
          start_inclusive end_inclusive false streamOutcome).1).map
        (fun full => full.drop offset) ∧
    (range_query table_name column_names start_key end_key limit offset
        start_inclusive end_inclusive false streamOutcome).2 =
      (range_query table_name column_names start_key end_key limit 0
        start_inclusive end_inclusive false streamOutcome).2 := by
  cases streamOutcome with
  | error e => cases e <;> simp [range_query, Except.map, CasErr.isTransient]
  | ok stream => simp [range_query, Except.map]

/-- C4 counterexample: the first metadata write fails with
InvalidRequest, the table is created, the retried write fails with
Unavailable — the surfaced failure is the raw driver exception, not the
ConnectionError kind. -/
theorem claim_C4_counterexample :
    (set_metadata "k" "v" (some .invalidRequest) none
        (some .unavailable)).1 = .error (.raw .unavailable) ∧
    isConnectionError
      (set_metadata "k" "v" (some .invalidRequest) none
        (some .unavailable)).1 = false :=
  ⟨rfl, rfl⟩

/-- C4 (amended): when the first write fails because the reserved
metadata table does not exist, that condition is caught exactly once,
the table is created, and the write is retried exactly one more time;
if the retried write also fails, the raised driver exception propagates
to the caller unwrapped, not as the ConnectionError kind. -/
theorem claim_C4_self_heal (key value : String)
    (secondWrite : Option CasErr) :
    (set_metadata key value (some .invalidRequest) none secondWrite).2 =
      [NetOp.executeStmt set_metadata_statement [key, value],
       NetOp.executeStmt (create_table_statement DATASTORE_METADATA_TABLE)
         [],
       NetOp.executeStmt set_metadata_statement [key, value]] ∧
    (set_metadata key value (some .invalidRequest) none secondWrite).1 =
      (match secondWrite with
       | none => .ok ()
       | some e2 => .error (.raw e2)) := by
  cases secondWrite <;> simp [set_metadata, create_table]

/-- C5: valid_data_version returns false when the version key is absent
and when the read hits a not-yet-created metadata table, and returns
true exactly when the stored value parses as a float equal to the
expected data layout version 1.0 (exact equality). -/
theorem claim_C5_valid_version :
    (valid_data_version (.rows [])).1 = .ok false ∧
    (valid_data_version (.raise .invalidRequest)).1 = .ok false ∧
    (valid_data_version (.rows ["1.0"])).1 = .ok true ∧
    (valid_data_version (.rows ["2.0"])).1 = .ok false ∧
    (∀ v : String,
        (valid_data_version (.rows [v])).1 = .ok true ↔
          pyFloat v = some EXPECTED_DATA_VERSION) := by
  refine ⟨rfl, rfl, ?_, ?_, ?_⟩
  · rfl
  · rfl
  intro v
  simp only [valid_data_version, get_metadata]
  cases hv : pyFloat v with
  | none => simp
  | some q => simp [decide_eq_true_eq]

/-- C10: valid_data_version is not total over stored metadata values —
a stored version value that does not parse as a float makes the
unguarded float() conversion raise ValueError instead of the operation
returning a boolean. -/
theorem claim_C10_unparsable_version_raises :
    (valid_data_version (.rows ["not-a-float"])).1 = .error .valueError ∧
    pyFloat "not-a-float" = none := by
  exact ⟨rfl, by decide⟩

end CassandraInterface
